import Mathlib

/-!
# Analog temperature sensor (`temp.c`): embedding and verified properties

The program samples a 10-bit ADC, converts the sample to Celsius and
Fahrenheit, drives eight LEDs from fixed Celsius thresholds and prints both
temperatures on a character display.

Conventions of the embedding:

* the 8-bit I/O registers `PORTB`, `PORTD`, `PORTC` are natural numbers, every
  store to them is reduced modulo `2 ^ 8`;
* `int` is the 16-bit `int` of avr-gcc; where a bit pattern is needed (`~`)
  it is the two's-complement pattern, a natural number below `2 ^ 16`;
* a finite `double` is the rational number it denotes and `*`, `/`, `+`, `-`
  on `double` are exact rational operations (rounding of the floating-point
  unit is not part of this model); comparisons `>=` are modelled on every
  `double`, the infinities and NaN included;
* code that has undefined behaviour in C (a `double` to `int` conversion out
  of range) returns `none`.
-/

namespace TempSensor

/-! ## Registers and pin numbers -/

/-- Bit number of pin `PB0` in `PORTB` (`<avr/io.h>`). -/
def PB0 : Nat := 0
/-- Bit number of pin `PD7` in `PORTD` (`<avr/io.h>`). -/
def PD7 : Nat := 7
/-- Bit number of pin `PD6` in `PORTD` (`<avr/io.h>`). -/
def PD6 : Nat := 6
/-- Bit number of pin `PC5` in `PORTC` (`<avr/io.h>`). -/
def PC5 : Nat := 5
/-- Bit number of pin `PC4` in `PORTC` (`<avr/io.h>`). -/
def PC4 : Nat := 4
/-- Bit number of pin `PC3` in `PORTC` (`<avr/io.h>`). -/
def PC3 : Nat := 3
/-- Bit number of pin `PC2` in `PORTC` (`<avr/io.h>`). -/
def PC2 : Nat := 2
/-- Bit number of pin `PC1` in `PORTC` (`<avr/io.h>`). -/
def PC1 : Nat := 1
/-- Bit number of pin `PC0` in `PORTC` (`<avr/io.h>`). -/
def PC0 : Nat := 0

/-- Macro `#define GREEN_LED1_PIN PB0` -/
def GREEN_LED1_PIN : Nat := PB0
/-- Macro `#define GREEN_LED2_PIN PD7` -/
def GREEN_LED2_PIN : Nat := PD7
/-- Macro `#define GREEN_LED3_PIN PD6` -/
def GREEN_LED3_PIN : Nat := PD6
/-- Macro `#define YELLOW_LED1_PIN PC5` -/
def YELLOW_LED1_PIN : Nat := PC5
/-- Macro `#define YELLOW_LED2_PIN PC4` -/
def YELLOW_LED2_PIN : Nat := PC4
/-- Macro `#define YELLOW_LED3_PIN PC3` -/
def YELLOW_LED3_PIN : Nat := PC3
/-- Macro `#define RED_LED1_PIN PC2` -/
def RED_LED1_PIN : Nat := PC2
/-- Macro `#define RED_LED2_PIN PC1` -/
def RED_LED2_PIN : Nat := PC1
/-- Macro `#define TEMPERATURE_SENSOR_PIN PC0` -/
def TEMPERATURE_SENSOR_PIN : Nat := PC0

/-- The three output registers written by `control_LEDs`. -/
structure Ports where
  PORTB : Nat
  PORTD : Nat
  PORTC : Nat
deriving DecidableEq

/-- A store to a `volatile uint8_t` register keeps the low eight bits. -/
def uint8_t (v : Nat) : Nat := v % 2 ^ 8

/-- Bitwise complement `~x` of a 16-bit `int`, on two's-complement patterns. -/
def int_not (x : Nat) : Nat := (2 ^ 16 - 1) ^^^ (x % 2 ^ 16)

/-! ## Values of type `double` -/

/-- A value of C type `double`: a finite value, given by the rational number
it denotes, an infinity, or a NaN. -/
inductive Double where
  | finite (q : ℚ)
  | inf (negative : Bool)
  | nan

/-- The C comparison `t >= k` against a finite constant `k`: exact on finite
values, true for `+inf`, false for `-inf` and for NaN. -/
def Double.ge (t : Double) (k : ℚ) : Bool :=
  match t with
  | .finite q => decide (k ≤ q)
  | .inf negative => !negative
  | .nan => false

/-! ## `control_LEDs` -/

/-- Function `control_LEDs(temperature)`: eight read-modify-write stores, in source
order, each setting or clearing one LED bit. -/
def control_LEDs (temperature : Double) (ports : Ports) : Ports :=
  -- Control green LEDs.
  let ports := { ports with PORTB := uint8_t (if temperature.ge 20
    then ports.PORTB ||| (1 <<< GREEN_LED1_PIN) else ports.PORTB &&& int_not (1 <<< GREEN_LED1_PIN)) }
  let ports := { ports with PORTD := uint8_t (if temperature.ge 28
    then ports.PORTD ||| (1 <<< GREEN_LED2_PIN) else ports.PORTD &&& int_not (1 <<< GREEN_LED2_PIN)) }
  let ports := { ports with PORTD := uint8_t (if temperature.ge 36
    then ports.PORTD ||| (1 <<< GREEN_LED3_PIN) else ports.PORTD &&& int_not (1 <<< GREEN_LED3_PIN)) }
  -- Control yellow LEDs.
  let ports := { ports with PORTC := uint8_t (if temperature.ge 44
    then ports.PORTC ||| (1 <<< YELLOW_LED1_PIN) else ports.PORTC &&& int_not (1 <<< YELLOW_LED1_PIN)) }
  let ports := { ports with PORTC := uint8_t (if temperature.ge 52
    then ports.PORTC ||| (1 <<< YELLOW_LED2_PIN) else ports.PORTC &&& int_not (1 <<< YELLOW_LED2_PIN)) }
  let ports := { ports with PORTC := uint8_t (if temperature.ge 60
    then ports.PORTC ||| (1 <<< YELLOW_LED3_PIN) else ports.PORTC &&& int_not (1 <<< YELLOW_LED3_PIN)) }
  -- Control red LEDs.
  let ports := { ports with PORTC := uint8_t (if temperature.ge 68
    then ports.PORTC ||| (1 <<< RED_LED1_PIN) else ports.PORTC &&& int_not (1 <<< RED_LED1_PIN)) }
  let ports := { ports with PORTC := uint8_t (if temperature.ge 76
    then ports.PORTC ||| (1 <<< RED_LED2_PIN) else ports.PORTC &&& int_not (1 <<< RED_LED2_PIN)) }
  ports

/-- The eight indicators in the order in which `control_LEDs` writes them
(ascending threshold): the LED bit of each one. -/
def LED_on (ports : Ports) : Fin 8 → Bool
  | 0 => ports.PORTB.testBit GREEN_LED1_PIN
  | 1 => ports.PORTD.testBit GREEN_LED2_PIN
  | 2 => ports.PORTD.testBit GREEN_LED3_PIN
  | 3 => ports.PORTC.testBit YELLOW_LED1_PIN
  | 4 => ports.PORTC.testBit YELLOW_LED2_PIN
  | 5 => ports.PORTC.testBit YELLOW_LED3_PIN
  | 6 => ports.PORTC.testBit RED_LED1_PIN
  | 7 => ports.PORTC.testBit RED_LED2_PIN

/-- The constant each indicator is compared with in `control_LEDs`, in the
same order. -/
def LED_threshold : Fin 8 → ℚ
  | 0 => 20
  | 1 => 28
  | 2 => 36
  | 3 => 44
  | 4 => 52
  | 5 => 60
  | 6 => 68
  | 7 => 76


/-! ## Conversions and formatting used by `main` -/

/-- Largest value of type `int` (16 bits on the AVR target). -/
def INT_MAX : Int := 32767

/-- Smallest value of type `int` (16 bits on the AVR target). -/
def INT_MIN : Int := -32768

/-- The conversion `(int)x` of a finite `double`: the value truncated toward
zero. When the truncated value is not representable in `int` the behaviour is
undefined in C and the result here is `none`. -/
def int_of_double (x : ℚ) : Option Int :=
  let n : Int := if 0 ≤ x then ⌊x⌋ else ⌈x⌉
  if INT_MIN ≤ n ∧ n ≤ INT_MAX then some n else none

/-- The `sprintf` conversion `%d`: a minus sign for a negative value, then the
decimal digits of the magnitude. -/
def fmt_d (n : Int) : String :=
  if n < 0 then "-" ++ Nat.repr n.natAbs else Nat.repr n.natAbs

/-- The `sprintf` conversion `%02d`: as `%d`, padded with zeros after the sign
to a minimum field width of two characters. -/
def fmt_02d (n : Int) : String :=
  let digits := Nat.repr n.natAbs
  if n < 0 then "-" ++ digits
  else if digits.length < 2 then "0" ++ digits
  else digits

/-- Lines 52-56 of `main`: the four `(int)` conversions and the `sprintf` into
`char tempString[32]`. The result is `none` when a conversion is undefined or
when the text and its terminating NUL do not fit in the 32 bytes. -/
def format_tempString (temperature_celsius temperature_fahrenheit : ℚ) : Option String := do
  let temp_integer_celsius ← int_of_double temperature_celsius
  let temp_fractional_celsius ←
    int_of_double ((temperature_celsius - temp_integer_celsius) * 100)
  let temp_integer_fahrenheit ← int_of_double temperature_fahrenheit
  let temp_fractional_fahrenheit ←
    int_of_double ((temperature_fahrenheit - temp_integer_fahrenheit) * 100)
  let tempString := fmt_d temp_integer_celsius ++ "." ++ fmt_02d temp_fractional_celsius
    ++ "C   " ++ fmt_d temp_integer_fahrenheit ++ "." ++ fmt_02d temp_fractional_fahrenheit
    ++ "F"
  if tempString.length + 1 ≤ 32 then some tempString else none

/-- Line 43 of `main`: `(adc_value * 500.0) / 1023.0`. -/
def temperature_celsius (adc_value : Nat) : ℚ := ((adc_value : ℚ) * 500) / 1023

/-- Line 46 of `main`: `(temperature_celsius * 9 / 5) + 32`. -/
def temperature_fahrenheit (temperature_celsius : ℚ) : ℚ := (temperature_celsius * 9 / 5) + 32

/-- A call to the character display driver. -/
inductive LCD_call where
  | Clear
  | GotoXY (x y : Nat)
  | PrintString (s : String)
deriving DecidableEq

/-- What one pass through the body of `while (1)` in `main` leaves behind: the
two temperatures, the output registers, the formatted text and the display
calls in program order. -/
structure Iteration where
  temperature_celsius : ℚ
  temperature_fahrenheit : ℚ
  ports : Ports
  tempString : String
  lcd : List LCD_call

/-- The body of `while (1)` in `main`, for the sample `adc_value` returned by
`read_ADC` and the register contents `ports` at the start of the pass. -/
def loop_body (adc_value : Nat) (ports : Ports) : Option Iteration := do
  let celsius := temperature_celsius adc_value
  let fahrenheit := temperature_fahrenheit celsius
  let ports := control_LEDs (.finite celsius) ports
  let tempString ← format_tempString celsius fahrenheit
  some {
    temperature_celsius := celsius
    temperature_fahrenheit := fahrenheit
    ports := ports
    tempString := tempString
    lcd := [.Clear, .GotoXY 0 0, .PrintString "Temperatures: ", .GotoXY 0 1,
      .PrintString tempString] }

/-! ## Reference formatting, for comparison with `sprintf` -/

/-- A number below 100 written with exactly two decimal digits. -/
def two_digits (n : Nat) : String :=
  String.mk [Nat.digitChar (n / 10), Nat.digitChar (n % 10)]

/-- The text `<I>.<FF>C   <J>.<GG>F` for integer parts `I`, `J` and two-digit
fields `FF`, `GG`. -/
def line1_text (I FF J GG : Nat) : String :=
  Nat.repr I ++ "." ++ two_digits FF ++ "C   " ++ Nat.repr J ++ "." ++ two_digits GG ++ "F"

/-! ## Bit-level lemmas -/

theorem testBit_one_shiftLeft (n i : Nat) : (1 <<< n).testBit i = decide (n = i) := by
  rw [Nat.shiftLeft_eq, one_mul, Nat.testBit_two_pow]

theorem testBit_uint8_t (v i : Nat) (hi : i < 8) : (uint8_t v).testBit i = v.testBit i := by
  rw [uint8_t, Nat.testBit_mod_two_pow]; simp [hi]

theorem testBit_int_not (x i : Nat) (hi : i < 16) : (int_not x).testBit i = !x.testBit i := by
  rw [int_not, Nat.testBit_xor, Nat.testBit_mod_two_pow, Nat.testBit_two_pow_sub_one]; simp [hi]

/-- Storing `reg | (1 << n)` sets bit `n` and keeps the other bits. -/
theorem testBit_set (x n i : Nat) (hi : i < 8) :
    (uint8_t (x ||| (1 <<< n))).testBit i = (x.testBit i || decide (n = i)) := by
  rw [testBit_uint8_t _ _ hi, Nat.testBit_or, testBit_one_shiftLeft]

/-- Storing `reg & ~(1 << n)` clears bit `n` and keeps the other bits. -/
theorem testBit_clear (x n i : Nat) (hi : i < 8) :
    (uint8_t (x &&& int_not (1 <<< n))).testBit i = (x.testBit i && !decide (n = i)) := by
  rw [testBit_uint8_t _ _ hi, Nat.testBit_and, testBit_int_not _ _ (by omega),
    testBit_one_shiftLeft]

/-- One read-modify-write store of `control_LEDs`: bit `n` becomes the outcome
of the comparison, every other bit of the register is kept. -/
theorem testBit_store (c : Bool) (x n i : Nat) (hi : i < 8) :
    (uint8_t (if c then x ||| (1 <<< n) else x &&& int_not (1 <<< n))).testBit i
      = if n = i then c else x.testBit i := by
  cases c <;> by_cases h : n = i <;> simp [testBit_set, testBit_clear, hi, h]

/-- Bits of `PORTB` after `control_LEDs`. -/
theorem control_LEDs_PORTB (t : Double) (ports : Ports) (i : Nat) (hi : i < 8) :
    (control_LEDs t ports).PORTB.testBit i
      = if i = 0 then t.ge 20 else ports.PORTB.testBit i := by
  simp only [control_LEDs, testBit_store _ _ _ _ hi, GREEN_LED1_PIN, PB0]
  split_ifs <;> first | rfl | omega

/-- Bits of `PORTD` after `control_LEDs`. -/
theorem control_LEDs_PORTD (t : Double) (ports : Ports) (i : Nat) (hi : i < 8) :
    (control_LEDs t ports).PORTD.testBit i
      = if i = 7 then t.ge 28 else if i = 6 then t.ge 36 else ports.PORTD.testBit i := by
  simp only [control_LEDs, testBit_store _ _ _ _ hi, GREEN_LED2_PIN, GREEN_LED3_PIN, PD7, PD6]
  split_ifs <;> first | rfl | omega

/-- Bits of `PORTC` after `control_LEDs`. -/
theorem control_LEDs_PORTC (t : Double) (ports : Ports) (i : Nat) (hi : i < 8) :
    (control_LEDs t ports).PORTC.testBit i
      = if i = 5 then t.ge 44 else if i = 4 then t.ge 52 else if i = 3 then t.ge 60
        else if i = 2 then t.ge 68 else if i = 1 then t.ge 76 else ports.PORTC.testBit i := by
  simp only [control_LEDs, testBit_store _ _ _ _ hi, YELLOW_LED1_PIN, YELLOW_LED2_PIN,
    YELLOW_LED3_PIN, RED_LED1_PIN, RED_LED2_PIN, PC5, PC4, PC3, PC2, PC1]
  split_ifs <;> first | rfl | omega

/-- Each indicator bit after `control_LEDs` is the outcome of its comparison. -/
theorem control_LEDs_bits (t : Double) (ports : Ports) :
    (control_LEDs t ports).PORTB.testBit PB0 = t.ge 20 ∧
    (control_LEDs t ports).PORTD.testBit PD7 = t.ge 28 ∧
    (control_LEDs t ports).PORTD.testBit PD6 = t.ge 36 ∧
    (control_LEDs t ports).PORTC.testBit PC5 = t.ge 44 ∧
    (control_LEDs t ports).PORTC.testBit PC4 = t.ge 52 ∧
    (control_LEDs t ports).PORTC.testBit PC3 = t.ge 60 ∧
    (control_LEDs t ports).PORTC.testBit PC2 = t.ge 68 ∧
    (control_LEDs t ports).PORTC.testBit PC1 = t.ge 76 := by
  refine ⟨?_, ?_, ?_, ?_, ?_, ?_, ?_, ?_⟩
  · rw [PB0, control_LEDs_PORTB _ _ _ (by norm_num)]; rfl
  · rw [PD7, control_LEDs_PORTD _ _ _ (by norm_num)]; rfl
  · rw [PD6, control_LEDs_PORTD _ _ _ (by norm_num)]; rfl
  · rw [PC5, control_LEDs_PORTC _ _ _ (by norm_num)]; rfl
  · rw [PC4, control_LEDs_PORTC _ _ _ (by norm_num)]; rfl
  · rw [PC3, control_LEDs_PORTC _ _ _ (by norm_num)]; rfl
  · rw [PC2, control_LEDs_PORTC _ _ _ (by norm_num)]; rfl
  · rw [PC1, control_LEDs_PORTC _ _ _ (by norm_num)]; rfl

/-- Indexed form: indicator `k` is on exactly when the temperature passes the
comparison with the `k`-th constant. -/
theorem LED_on_control_LEDs (t : Double) (ports : Ports) (k : Fin 8) :
    LED_on (control_LEDs t ports) k = t.ge (LED_threshold k) := by
  obtain ⟨h0, h1, h2, h3, h4, h5, h6, h7⟩ := control_LEDs_bits t ports
  fin_cases k
  · exact h0
  · exact h1
  · exact h2
  · exact h3
  · exact h4
  · exact h5
  · exact h6
  · exact h7

theorem Double.ge_finite (q k : ℚ) : (Double.finite q).ge k = true ↔ k ≤ q := by
  simp [Double.ge]

/-- The comparison is monotone in the constant: passing a larger constant
implies passing every smaller one. -/
theorem Double.ge_of_le (t : Double) (a b : ℚ) (hab : a ≤ b) (h : t.ge b = true) :
    t.ge a = true := by
  cases t with
  | finite q =>
    rw [Double.ge_finite] at h ⊢
    exact le_trans hab h
  | inf negative => simpa [Double.ge] using h
  | nan => simp [Double.ge] at h

theorem LED_threshold_mono (j k : Fin 8) (h : j < k) : LED_threshold j ≤ LED_threshold k := by
  fin_cases j <;> fin_cases k <;> first | (exact absurd h (by decide)) | (norm_num [LED_threshold])

/-! ## Conversions and formatting -/

/-- A non-negative value below `INT_MAX + 1` converts to its floor. -/
theorem int_of_double_of_nonneg (x : ℚ) (h0 : 0 ≤ x) (h1 : x < 32768) :
    int_of_double x = some (⌊x⌋₊ : Int) := by
  have hfl : (⌊x⌋₊ : Int) = ⌊x⌋ := Int.natCast_floor_eq_floor h0
  have hlt : ⌊x⌋₊ < 32768 := (Nat.floor_lt h0).2 (by exact_mod_cast h1)
  unfold int_of_double
  simp only [h0, if_true]
  rw [← hfl, if_pos]
  constructor
  · simp only [INT_MIN]; omega
  · simp only [INT_MAX]; omega

theorem fmt_d_natCast (n : Nat) : fmt_d (n : Int) = Nat.repr n := by
  simp [fmt_d]

/-- On 0..99 the conversion `%02d` prints exactly the two decimal digits. -/
theorem fmt_02d_natCast (n : Nat) (h : n < 100) : fmt_02d (n : Int) = two_digits n := by
  have key : ∀ m : Fin 100, fmt_02d (m.val : Int) = two_digits m.val := by decide
  exact key ⟨n, h⟩

theorem two_digits_length (n : Nat) : (two_digits n).length = 2 := rfl

theorem line1_text_length (I FF J GG : Nat) :
    (line1_text I FF J GG).length = (Nat.repr I).length + (Nat.repr J).length + 11 := by
  simp only [line1_text, String.length_append, two_digits_length]
  have h1 : ".".length = 1 := rfl
  have h2 : "C   ".length = 4 := rfl
  have h3 : "F".length = 1 := rfl
  omega

/-- The truncated hundredths of a fractional part lie in 0..99. -/
theorem fract_field_lt (x : ℚ) : ⌊Int.fract x * 100⌋₊ < 100 := by
  have h0 : 0 ≤ Int.fract x * 100 := mul_nonneg (Int.fract_nonneg x) (by norm_num)
  rw [Nat.floor_lt h0]
  have := Int.fract_lt_one x
  push_cast
  linarith

/-- For non-negative temperatures below `INT_MAX + 1` the four conversions are
defined, the text fits the buffer, and it is the reference text built from the
integer parts and the truncated hundredths. -/
theorem format_tempString_eq (c f : ℚ) (hc0 : 0 ≤ c) (hc : c < 32768)
    (hf0 : 0 ≤ f) (hf : f < 32768) :
    format_tempString c f
      = some (line1_text ⌊c⌋₊ ⌊Int.fract c * 100⌋₊ ⌊f⌋₊ ⌊Int.fract f * 100⌋₊) := by
  have frac : ∀ x : ℚ, 0 ≤ x → (x - ((⌊x⌋₊ : Int) : ℚ)) * 100 = Int.fract x * 100 := by
    intro x hx
    rw [Int.natCast_floor_eq_floor hx, Int.fract]
  have fracconv : ∀ x : ℚ,
      int_of_double (Int.fract x * 100) = some (⌊Int.fract x * 100⌋₊ : Int) := by
    intro x
    apply int_of_double_of_nonneg
    · exact mul_nonneg (Int.fract_nonneg x) (by norm_num)
    · have := Int.fract_lt_one x
      linarith
  have len : ∀ x : ℚ, 0 ≤ x → x < 32768 → (Nat.repr ⌊x⌋₊).length ≤ 5 := by
    intro x hx0 hx
    apply Nat.repr_length _ 5 (by norm_num)
    have : ⌊x⌋₊ < 32768 := (Nat.floor_lt hx0).2 (by exact_mod_cast hx)
    omega
  have hfit :
      (line1_text ⌊c⌋₊ ⌊Int.fract c * 100⌋₊ ⌊f⌋₊ ⌊Int.fract f * 100⌋₊).length + 1 ≤ 32 := by
    rw [line1_text_length]
    have := len c hc0 hc
    have := len f hf0 hf
    omega
  unfold format_tempString
  simp only [int_of_double_of_nonneg c hc0 hc, int_of_double_of_nonneg f hf0 hf, frac c hc0,
    frac f hf0, fracconv, Option.bind_eq_bind, Option.some_bind, fmt_d_natCast,
    fmt_02d_natCast _ (fract_field_lt _)]
  exact if_pos hfit

/-! ## One pass of the loop, in integer form -/

theorem temperature_celsius_nonneg (raw : Nat) : 0 ≤ temperature_celsius raw := by
  unfold temperature_celsius
  positivity

theorem temperature_celsius_le (raw : Nat) (h : raw ≤ 1023) : temperature_celsius raw ≤ 500 := by
  unfold temperature_celsius
  rw [div_le_iff₀ (by norm_num)]
  have : (raw : ℚ) ≤ 1023 := by exact_mod_cast h
  linarith

/-- The Fahrenheit value of a sample as a single fraction. -/
theorem temperature_fahrenheit_eq (raw : Nat) :
    temperature_fahrenheit (temperature_celsius raw)
      = ((raw * 4500 + 163680 : Nat) : ℚ) / (5115 : Nat) := by
  unfold temperature_fahrenheit temperature_celsius
  push_cast
  field_simp
  ring

theorem temperature_celsius_eq (raw : Nat) :
    temperature_celsius raw = ((raw * 500 : Nat) : ℚ) / (1023 : Nat) := by
  unfold temperature_celsius
  push_cast
  rfl

theorem floor_hundredths (a b : Nat) :
    ⌊Int.fract ((a : ℚ) / (b : ℚ)) * 100⌋₊ = a % b * 100 / b := by
  rw [Int.fract_div_natCast_eq_div_natCast_mod, div_mul_eq_mul_div]
  have : ((a % b : Nat) : ℚ) * 100 = ((a % b * 100 : Nat) : ℚ) := by push_cast; rfl
  rw [this, Nat.floor_div_eq_div]

/-- Integer form of the text printed for a sample: quotients and remainders of
`raw * 500` by 1023 and of `raw * 4500 + 163680` by 5115. -/
theorem loop_body_eq (raw : Nat) (h : raw ≤ 1023) (ports : Ports) :
    loop_body raw ports = some {
      temperature_celsius := temperature_celsius raw
      temperature_fahrenheit := temperature_fahrenheit (temperature_celsius raw)
      ports := control_LEDs (.finite (temperature_celsius raw)) ports
      tempString := line1_text (raw * 500 / 1023) (raw * 500 % 1023 * 100 / 1023)
        ((raw * 4500 + 163680) / 5115) ((raw * 4500 + 163680) % 5115 * 100 / 5115)
      lcd := [.Clear, .GotoXY 0 0, .PrintString "Temperatures: ", .GotoXY 0 1,
        .PrintString (line1_text (raw * 500 / 1023) (raw * 500 % 1023 * 100 / 1023)
          ((raw * 4500 + 163680) / 5115) ((raw * 4500 + 163680) % 5115 * 100 / 5115))] } := by
  have hc0 := temperature_celsius_nonneg raw
  have hc := temperature_celsius_le raw h
  have hf0 : 0 ≤ temperature_fahrenheit (temperature_celsius raw) := by
    unfold temperature_fahrenheit; linarith
  have hf : temperature_fahrenheit (temperature_celsius raw) < 32768 := by
    unfold temperature_fahrenheit; linarith
  have hfmt := format_tempString_eq _ _ hc0 (by linarith) hf0 hf
  rw [temperature_fahrenheit_eq, Nat.floor_div_eq_div, floor_hundredths] at hfmt
  nth_rewrite 2 [temperature_celsius_eq] at hfmt
  nth_rewrite 2 [temperature_celsius_eq] at hfmt
  rw [Nat.floor_div_eq_div, floor_hundredths, ← temperature_fahrenheit_eq] at hfmt
  unfold loop_body
  simp only [hfmt, Option.bind_eq_bind, Option.some_bind]

/-- The threshold comparisons of a sample, as integer inequalities. -/
theorem le_temperature_celsius_iff (k raw : Nat) :
    (k : ℚ) ≤ temperature_celsius raw ↔ k * 1023 ≤ raw * 500 := by
  unfold temperature_celsius
  rw [le_div_iff₀ (by norm_num)]
  exact_mod_cast Iff.rfl

/-- Indicator bits after `control_LEDs` on a sample, as integer inequalities. -/
theorem control_LEDs_bits_raw (raw : Nat) (ports : Ports) :
    ((control_LEDs (.finite (temperature_celsius raw)) ports).PORTB.testBit PB0 = true
      ↔ 41 ≤ raw) ∧
    ((control_LEDs (.finite (temperature_celsius raw)) ports).PORTD.testBit PD7 = true
      ↔ 58 ≤ raw) ∧
    ((control_LEDs (.finite (temperature_celsius raw)) ports).PORTD.testBit PD6 = true
      ↔ 74 ≤ raw) ∧
    ((control_LEDs (.finite (temperature_celsius raw)) ports).PORTC.testBit PC5 = true
      ↔ 91 ≤ raw) ∧
    ((control_LEDs (.finite (temperature_celsius raw)) ports).PORTC.testBit PC4 = true
      ↔ 107 ≤ raw) ∧
    ((control_LEDs (.finite (temperature_celsius raw)) ports).PORTC.testBit PC3 = true
      ↔ 123 ≤ raw) ∧
    ((control_LEDs (.finite (temperature_celsius raw)) ports).PORTC.testBit PC2 = true
      ↔ 140 ≤ raw) ∧
    ((control_LEDs (.finite (temperature_celsius raw)) ports).PORTC.testBit PC1 = true
      ↔ 156 ≤ raw) := by
  obtain ⟨h0, h1, h2, h3, h4, h5, h6, h7⟩ :=
    control_LEDs_bits (.finite (temperature_celsius raw)) ports
  rw [h0, h1, h2, h3, h4, h5, h6, h7]
  simp only [Double.ge_finite]
  have e := le_temperature_celsius_iff
  have e20 := e 20 raw
  have e28 := e 28 raw
  have e36 := e 36 raw
  have e44 := e 44 raw
  have e52 := e 52 raw
  have e60 := e 60 raw
  have e68 := e 68 raw
  have e76 := e 76 raw
  push_cast at e20 e28 e36 e44 e52 e60 e68 e76
  rw [e20, e28, e36, e44, e52, e60, e68, e76]
  refine ⟨?_, ?_, ?_, ?_, ?_, ?_, ?_, ?_⟩ <;> omega

set_option maxRecDepth 100000 in
/-- Decimal numerals below 1000 have one to three digits, at least two from 10 on. -/
theorem repr_length_small (n : Nat) (h : n < 1000) :
    1 ≤ (Nat.repr n).length ∧ (Nat.repr n).length ≤ 3 ∧ (10 ≤ n → 2 ≤ (Nat.repr n).length) := by
  have key : ∀ m : Fin 1000, 1 ≤ (Nat.repr m.val).length ∧ (Nat.repr m.val).length ≤ 3 ∧
      (10 ≤ m.val → 2 ≤ (Nat.repr m.val).length) := by decide
  exact key ⟨n, h⟩

/-- The Celsius conversion of a sample stays at least `1/1023` away from each
of the eight comparison constants, so the outcome of every comparison in
`control_LEDs` is insensitive to an error below `1/1023` in the conversion. -/
theorem temperature_celsius_margin (raw : Nat) (k : Fin 8) :
    1 / 1023 ≤ |temperature_celsius raw - LED_threshold k| := by
  have key : ∀ n : Nat, raw * 500 ≠ n * 1023 →
      1 / 1023 ≤ |temperature_celsius raw - (n : ℚ)| := by
    intro n hn
    have hz : (1 : ℤ) ≤ |(raw : ℤ) * 500 - (n : ℤ) * 1023| := by
      apply Int.one_le_abs
      omega
    have hq : (1 : ℚ) ≤ |(raw : ℚ) * 500 - (n : ℚ) * 1023| := by exact_mod_cast hz
    have e : temperature_celsius raw - (n : ℚ) = ((raw : ℚ) * 500 - (n : ℚ) * 1023) / 1023 := by
      unfold temperature_celsius
      field_simp
      ring
    rw [e, abs_div, abs_of_pos (by norm_num : (0 : ℚ) < 1023)]
    exact div_le_div_of_nonneg_right hq (by norm_num)
  fin_cases k
  · simpa [LED_threshold] using key 20 (by omega)
  · simpa [LED_threshold] using key 28 (by omega)
  · simpa [LED_threshold] using key 36 (by omega)
  · simpa [LED_threshold] using key 44 (by omega)
  · simpa [LED_threshold] using key 52 (by omega)
  · simpa [LED_threshold] using key 60 (by omega)
  · simpa [LED_threshold] using key 68 (by omega)
  · simpa [LED_threshold] using key 76 (by omega)

/-! ## `control_LEDs`: thresholds, ordering, frame -/

/-- C1: after `control_LEDs(t)`, whatever the registers held before, each of
the eight indicator bits is set if and only if `t` is greater than or equal to
its threshold (20, 28, 36, 44, 52, 60, 68, 76 for PB0, PD7, PD6, PC5, PC4, PC3,
PC2, PC1). This holds for every `double` (first block) and reads as `k ≤ q` for
a finite value `q` (second block). The comparison is inclusive: the value 20
turns on PB0 and no higher indicator, and a value below 20 leaves PB0 off. -/
theorem C1_control_LEDs_threshold_iff (t : Double) (q : ℚ) (ports : Ports) :
    (((control_LEDs t ports).PORTB.testBit PB0 = true ↔ t.ge 20 = true) ∧
     ((control_LEDs t ports).PORTD.testBit PD7 = true ↔ t.ge 28 = true) ∧
     ((control_LEDs t ports).PORTD.testBit PD6 = true ↔ t.ge 36 = true) ∧
     ((control_LEDs t ports).PORTC.testBit PC5 = true ↔ t.ge 44 = true) ∧
     ((control_LEDs t ports).PORTC.testBit PC4 = true ↔ t.ge 52 = true) ∧
     ((control_LEDs t ports).PORTC.testBit PC3 = true ↔ t.ge 60 = true) ∧
     ((control_LEDs t ports).PORTC.testBit PC2 = true ↔ t.ge 68 = true) ∧
     ((control_LEDs t ports).PORTC.testBit PC1 = true ↔ t.ge 76 = true)) ∧
    (((control_LEDs (.finite q) ports).PORTB.testBit PB0 = true ↔ 20 ≤ q) ∧
     ((control_LEDs (.finite q) ports).PORTD.testBit PD7 = true ↔ 28 ≤ q) ∧
     ((control_LEDs (.finite q) ports).PORTD.testBit PD6 = true ↔ 36 ≤ q) ∧
     ((control_LEDs (.finite q) ports).PORTC.testBit PC5 = true ↔ 44 ≤ q) ∧
     ((control_LEDs (.finite q) ports).PORTC.testBit PC4 = true ↔ 52 ≤ q) ∧
     ((control_LEDs (.finite q) ports).PORTC.testBit PC3 = true ↔ 60 ≤ q) ∧
     ((control_LEDs (.finite q) ports).PORTC.testBit PC2 = true ↔ 68 ≤ q) ∧
     ((control_LEDs (.finite q) ports).PORTC.testBit PC1 = true ↔ 76 ≤ q)) ∧
    ((control_LEDs (.finite 20) ports).PORTB.testBit PB0 = true ∧
     (control_LEDs (.finite 20) ports).PORTD.testBit PD7 = false ∧
     (control_LEDs (.finite 20) ports).PORTD.testBit PD6 = false ∧
     (control_LEDs (.finite 20) ports).PORTC.testBit PC5 = false ∧
     (control_LEDs (.finite 20) ports).PORTC.testBit PC4 = false ∧
     (control_LEDs (.finite 20) ports).PORTC.testBit PC3 = false ∧
     (control_LEDs (.finite 20) ports).PORTC.testBit PC2 = false ∧
     (control_LEDs (.finite 20) ports).PORTC.testBit PC1 = false) ∧
    (q < 20 → (control_LEDs (.finite q) ports).PORTB.testBit PB0 = false) := by
  refine ⟨?_, ?_, ?_, ?_⟩
  · obtain ⟨h0, h1, h2, h3, h4, h5, h6, h7⟩ := control_LEDs_bits t ports
    rw [h0, h1, h2, h3, h4, h5, h6, h7]
    simp
  · obtain ⟨h0, h1, h2, h3, h4, h5, h6, h7⟩ := control_LEDs_bits (.finite q) ports
    rw [h0, h1, h2, h3, h4, h5, h6, h7]
    simp only [Double.ge_finite, and_self]
  · obtain ⟨h0, h1, h2, h3, h4, h5, h6, h7⟩ := control_LEDs_bits (.finite 20) ports
    rw [h0, h1, h2, h3, h4, h5, h6, h7]
    refine ⟨?_, ?_, ?_, ?_, ?_, ?_, ?_, ?_⟩ <;> simp [Double.ge] <;> norm_num
  · intro hq
    rw [(control_LEDs_bits (.finite q) ports).1]
    simpa [Double.ge] using hq

/-- C1, instance: at 19 degrees, with every register bit set beforehand, PB0 is
cleared. -/
theorem C1_control_LEDs_threshold_iff_witness :
    (19 : ℚ) < 20 ∧ (control_LEDs (.finite 19) ⟨255, 255, 255⟩).PORTB.testBit PB0 = false :=
  ⟨by norm_num,
    (C1_control_LEDs_threshold_iff (.finite 19) 19 ⟨255, 255, 255⟩).2.2.2 (by norm_num)⟩

/-- C2: after `control_LEDs(t)` the indicators that are on, ordered by
threshold, are downward closed: if indicator `k` is on, every indicator with a
smaller index `j` is on as well. -/
theorem C2_control_LEDs_on_downward_closed (t : Double) (ports : Ports) (j k : Fin 8)
    (hjk : j < k) (hk : LED_on (control_LEDs t ports) k = true) :
    LED_on (control_LEDs t ports) j = true := by
  rw [LED_on_control_LEDs] at hk ⊢
  exact Double.ge_of_le t _ _ (LED_threshold_mono j k hjk) hk

/-- C2, instance: at 44 degrees indicator 3 is on, hence indicator 0 is on. -/
theorem C2_control_LEDs_on_downward_closed_witness :
    (0 : Fin 8) < 3 ∧ LED_on (control_LEDs (.finite 44) ⟨0, 0, 0⟩) 3 = true ∧
      LED_on (control_LEDs (.finite 44) ⟨0, 0, 0⟩) 0 = true :=
  ⟨by decide, by decide,
    C2_control_LEDs_on_downward_closed (.finite 44) ⟨0, 0, 0⟩ 0 3 (by decide) (by decide)⟩

/-- C9: `control_LEDs` changes only the eight indicator bits. For every
temperature and every register content, bits 1-7 of `PORTB`, bits 0-5 of
`PORTD` and bits 0, 6 and 7 of `PORTC` have the same value after the call as
before it, and each register still holds an 8-bit value. -/
theorem C9_control_LEDs_frame (t : Double) (ports : Ports) (i : Nat) :
    (1 ≤ i ∧ i ≤ 7 → (control_LEDs t ports).PORTB.testBit i = ports.PORTB.testBit i) ∧
    (i ≤ 5 → (control_LEDs t ports).PORTD.testBit i = ports.PORTD.testBit i) ∧
    (i = 0 ∨ i = 6 ∨ i = 7 → (control_LEDs t ports).PORTC.testBit i = ports.PORTC.testBit i) ∧
    (control_LEDs t ports).PORTB < 256 ∧ (control_LEDs t ports).PORTD < 256 ∧
    (control_LEDs t ports).PORTC < 256 := by
  refine ⟨?_, ?_, ?_, ?_, ?_, ?_⟩
  · rintro ⟨h1, h7⟩
    rw [control_LEDs_PORTB _ _ _ (by omega), if_neg (by omega)]
  · intro h5
    rw [control_LEDs_PORTD _ _ _ (by omega), if_neg (by omega), if_neg (by omega)]
  · intro h
    rw [control_LEDs_PORTC _ _ _ (by omega), if_neg (by omega), if_neg (by omega),
      if_neg (by omega), if_neg (by omega), if_neg (by omega)]
  · exact Nat.mod_lt _ (by norm_num)
  · exact Nat.mod_lt _ (by norm_num)
  · exact Nat.mod_lt _ (by norm_num)

/-- C9, instance: bit 3 of `PORTB` and `PORTD` and bit 6 of `PORTC`, set before
the call at 0 degrees, are still set after it. -/
theorem C9_control_LEDs_frame_witness :
    (control_LEDs (.finite 0) ⟨255, 255, 255⟩).PORTB.testBit 3 = true ∧
    (control_LEDs (.finite 0) ⟨255, 255, 255⟩).PORTD.testBit 3 = true ∧
    (control_LEDs (.finite 0) ⟨255, 255, 255⟩).PORTC.testBit 6 = true :=
  ⟨((C9_control_LEDs_frame (.finite 0) ⟨255, 255, 255⟩ 3).1 (by decide)).trans (by decide),
   ((C9_control_LEDs_frame (.finite 0) ⟨255, 255, 255⟩ 3).2.1 (by decide)).trans (by decide),
   ((C9_control_LEDs_frame (.finite 0) ⟨255, 255, 255⟩ 6).2.2.1 (by decide)).trans (by decide)⟩

/-! ## The temperature reading -/

/-- The Celsius conversion of a sample is never 44: `raw * 500 = 45012` has no
solution in integers. -/
theorem temperature_celsius_ne_44 (raw : Nat) : temperature_celsius raw ≠ 44 := by
  intro h
  have h4 : (raw : ℚ) * 500 = 44 * 1023 := by
    unfold temperature_celsius at h
    rwa [div_eq_iff (by norm_num)] at h
  have h5 : raw * 500 = 44 * 1023 := by exact_mod_cast h4
  omega

/-- C5 (scenario 1): when the sampled raw value is 0, the pass of the loop
computes celsius = 0 and fahrenheit = 32, leaves all eight indicator bits (PB0,
PD7, PD6, PC5, PC4, PC3, PC2, PC1) off, and prints exactly `0.00C   32.00F` on
display line 1 (after clearing the display and printing the label on line 0). -/
theorem C5_scenario_raw_0 (ports : Ports) :
    ∃ it : Iteration, loop_body 0 ports = some it ∧
      it.temperature_celsius = 0 ∧ it.temperature_fahrenheit = 32 ∧
      it.ports.PORTB.testBit PB0 = false ∧ it.ports.PORTD.testBit PD7 = false ∧
      it.ports.PORTD.testBit PD6 = false ∧ it.ports.PORTC.testBit PC5 = false ∧
      it.ports.PORTC.testBit PC4 = false ∧ it.ports.PORTC.testBit PC3 = false ∧
      it.ports.PORTC.testBit PC2 = false ∧ it.ports.PORTC.testBit PC1 = false ∧
      it.tempString = "0.00C   32.00F" ∧
      it.lcd = [.Clear, .GotoXY 0 0, .PrintString "Temperatures: ", .GotoXY 0 1,
        .PrintString "0.00C   32.00F"] := by
  have hc : temperature_celsius 0 = 0 := by norm_num [temperature_celsius]
  have hf : temperature_fahrenheit (temperature_celsius 0) = 32 := by
    rw [hc]; norm_num [temperature_fahrenheit]
  have ht : line1_text (0 * 500 / 1023) (0 * 500 % 1023 * 100 / 1023)
      ((0 * 4500 + 163680) / 5115) ((0 * 4500 + 163680) % 5115 * 100 / 5115)
      = "0.00C   32.00F" := by decide
  obtain ⟨h0, h1, h2, h3, h4, h5, h6, h7⟩ := control_LEDs_bits_raw 0 ports
  refine ⟨_, loop_body_eq 0 (by decide) ports, hc, hf, ?_, ?_, ?_, ?_, ?_, ?_, ?_, ?_, ?_, ?_⟩
  · exact Bool.eq_false_iff.2 (fun h => absurd (h0.1 h) (by decide))
  · exact Bool.eq_false_iff.2 (fun h => absurd (h1.1 h) (by decide))
  · exact Bool.eq_false_iff.2 (fun h => absurd (h2.1 h) (by decide))
  · exact Bool.eq_false_iff.2 (fun h => absurd (h3.1 h) (by decide))
  · exact Bool.eq_false_iff.2 (fun h => absurd (h4.1 h) (by decide))
  · exact Bool.eq_false_iff.2 (fun h => absurd (h5.1 h) (by decide))
  · exact Bool.eq_false_iff.2 (fun h => absurd (h6.1 h) (by decide))
  · exact Bool.eq_false_iff.2 (fun h => absurd (h7.1 h) (by decide))
  · exact ht
  · exact congrArg (fun s => [LCD_call.Clear, .GotoXY 0 0, .PrintString "Temperatures: ",
      .GotoXY 0 1, .PrintString s]) ht

/-- C6 (scenario 2): when the sampled raw value is 1023, the pass of the loop
computes celsius = 500 and fahrenheit = 932 and turns all eight indicator bits
on. -/
theorem C6_scenario_raw_1023 (ports : Ports) :
    ∃ it : Iteration, loop_body 1023 ports = some it ∧
      it.temperature_celsius = 500 ∧ it.temperature_fahrenheit = 932 ∧
      it.ports.PORTB.testBit PB0 = true ∧ it.ports.PORTD.testBit PD7 = true ∧
      it.ports.PORTD.testBit PD6 = true ∧ it.ports.PORTC.testBit PC5 = true ∧
      it.ports.PORTC.testBit PC4 = true ∧ it.ports.PORTC.testBit PC3 = true ∧
      it.ports.PORTC.testBit PC2 = true ∧ it.ports.PORTC.testBit PC1 = true := by
  have hc : temperature_celsius 1023 = 500 := by norm_num [temperature_celsius]
  have hf : temperature_fahrenheit (temperature_celsius 1023) = 932 := by
    rw [hc]; norm_num [temperature_fahrenheit]
  obtain ⟨h0, h1, h2, h3, h4, h5, h6, h7⟩ := control_LEDs_bits_raw 1023 ports
  exact ⟨_, loop_body_eq 1023 (by decide) ports, hc, hf, h0.2 (by decide), h1.2 (by decide),
    h2.2 (by decide), h3.2 (by decide), h4.2 (by decide), h5.2 (by decide), h6.2 (by decide),
    h7.2 (by decide)⟩

/-- C7, as stated, fails: no raw sample in 0..1023 has a Celsius conversion
`raw * 500 / 1023` equal to 44 (that would need `raw * 500 = 45012`). -/
theorem C7_no_raw_gives_44 :
    ¬ ∃ raw : Nat, raw ≤ 1023 ∧ temperature_celsius raw = 44 := by
  rintro ⟨raw, -, h⟩
  exact temperature_celsius_ne_44 raw h

/-- C7, amended: a Celsius value of exactly 44 makes `control_LEDs` turn on the
first four indicators (thresholds 20, 28, 36, 44) and leave the remaining four
(52, 60, 68, 76) off. No raw sample converts to exactly 44; the raw samples in
0..1023 whose pass of the loop produces this pattern are those from 91 to 106. -/
theorem C7_scenario_celsius_44 (raw : Nat) (h : raw ≤ 1023) (ports : Ports) :
    ((control_LEDs (.finite 44) ports).PORTB.testBit PB0 = true ∧
     (control_LEDs (.finite 44) ports).PORTD.testBit PD7 = true ∧
     (control_LEDs (.finite 44) ports).PORTD.testBit PD6 = true ∧
     (control_LEDs (.finite 44) ports).PORTC.testBit PC5 = true ∧
     (control_LEDs (.finite 44) ports).PORTC.testBit PC4 = false ∧
     (control_LEDs (.finite 44) ports).PORTC.testBit PC3 = false ∧
     (control_LEDs (.finite 44) ports).PORTC.testBit PC2 = false ∧
     (control_LEDs (.finite 44) ports).PORTC.testBit PC1 = false) ∧
    ∃ it : Iteration, loop_body raw ports = some it ∧
      it.temperature_celsius ≠ 44 ∧
      ((it.ports.PORTB.testBit PB0 = true ∧ it.ports.PORTD.testBit PD7 = true ∧
        it.ports.PORTD.testBit PD6 = true ∧ it.ports.PORTC.testBit PC5 = true ∧
        it.ports.PORTC.testBit PC4 = false ∧ it.ports.PORTC.testBit PC3 = false ∧
        it.ports.PORTC.testBit PC2 = false ∧ it.ports.PORTC.testBit PC1 = false)
       ↔ 91 ≤ raw ∧ raw ≤ 106) := by
  constructor
  · obtain ⟨h0, h1, h2, h3, h4, h5, h6, h7⟩ := control_LEDs_bits (.finite 44) ports
    rw [h0, h1, h2, h3, h4, h5, h6, h7]
    refine ⟨?_, ?_, ?_, ?_, ?_, ?_, ?_, ?_⟩ <;> simp [Double.ge] <;> norm_num
  · refine ⟨_, loop_body_eq raw h ports, ?_, ?_⟩
    · exact temperature_celsius_ne_44 raw
    · obtain ⟨h0, h1, h2, h3, h4, h5, h6, h7⟩ := control_LEDs_bits_raw raw ports
      show (((control_LEDs (.finite (temperature_celsius raw)) ports).PORTB.testBit PB0 = true
        ∧ _) ↔ _)
      simp only [← Bool.not_eq_true, h0, h1, h2, h3, h4, h5, h6, h7]
      omega

/-- C7, instance: the sample 100 (about 48.9 degrees) lights exactly the first
four indicators. -/
theorem C7_scenario_celsius_44_witness :
    100 ≤ 1023 ∧ ∃ it : Iteration, loop_body 100 ⟨0, 0, 0⟩ = some it ∧
      it.temperature_celsius ≠ 44 ∧
      ((it.ports.PORTB.testBit PB0 = true ∧ it.ports.PORTD.testBit PD7 = true ∧
        it.ports.PORTD.testBit PD6 = true ∧ it.ports.PORTC.testBit PC5 = true ∧
        it.ports.PORTC.testBit PC4 = false ∧ it.ports.PORTC.testBit PC3 = false ∧
        it.ports.PORTC.testBit PC2 = false ∧ it.ports.PORTC.testBit PC1 = false)
       ↔ 91 ≤ 100 ∧ 100 ≤ 106) :=
  ⟨by decide, (C7_scenario_celsius_44 100 (by decide) ⟨0, 0, 0⟩).2⟩

/-! ## Raw cut-offs and the size of the text -/

/-- C8: for every raw sample in 0..1023, the Celsius conversion followed by
`control_LEDs` gives integer cut-offs on the raw value: the indicators with
thresholds 20, 28, 36, 44, 52, 60, 68, 76 are on if and only if raw is at least
41, 58, 74, 91, 107, 123, 140, 156 respectively. Hence every raw >= 156 lights
all eight indicators and every raw <= 40 lights none. -/
theorem C8_raw_cutoffs (raw : Nat) (h : raw ≤ 1023) (ports : Ports) :
    ∃ it : Iteration, loop_body raw ports = some it ∧
      (it.ports.PORTB.testBit PB0 = true ↔ 41 ≤ raw) ∧
      (it.ports.PORTD.testBit PD7 = true ↔ 58 ≤ raw) ∧
      (it.ports.PORTD.testBit PD6 = true ↔ 74 ≤ raw) ∧
      (it.ports.PORTC.testBit PC5 = true ↔ 91 ≤ raw) ∧
      (it.ports.PORTC.testBit PC4 = true ↔ 107 ≤ raw) ∧
      (it.ports.PORTC.testBit PC3 = true ↔ 123 ≤ raw) ∧
      (it.ports.PORTC.testBit PC2 = true ↔ 140 ≤ raw) ∧
      (it.ports.PORTC.testBit PC1 = true ↔ 156 ≤ raw) ∧
      (156 ≤ raw → ∀ k : Fin 8, LED_on it.ports k = true) ∧
      (raw ≤ 40 → ∀ k : Fin 8, LED_on it.ports k = false) := by
  obtain ⟨h0, h1, h2, h3, h4, h5, h6, h7⟩ := control_LEDs_bits_raw raw ports
  refine ⟨_, loop_body_eq raw h ports, h0, h1, h2, h3, h4, h5, h6, h7, ?_, ?_⟩
  · intro hr k
    fin_cases k
    · exact h0.2 (by omega)
    · exact h1.2 (by omega)
    · exact h2.2 (by omega)
    · exact h3.2 (by omega)
    · exact h4.2 (by omega)
    · exact h5.2 (by omega)
    · exact h6.2 (by omega)
    · exact h7.2 (by omega)
  · intro hr k
    fin_cases k
    · exact Bool.eq_false_iff.2 (fun hb => absurd (h0.1 hb) (by omega))
    · exact Bool.eq_false_iff.2 (fun hb => absurd (h1.1 hb) (by omega))
    · exact Bool.eq_false_iff.2 (fun hb => absurd (h2.1 hb) (by omega))
    · exact Bool.eq_false_iff.2 (fun hb => absurd (h3.1 hb) (by omega))
    · exact Bool.eq_false_iff.2 (fun hb => absurd (h4.1 hb) (by omega))
    · exact Bool.eq_false_iff.2 (fun hb => absurd (h5.1 hb) (by omega))
    · exact Bool.eq_false_iff.2 (fun hb => absurd (h6.1 hb) (by omega))
    · exact Bool.eq_false_iff.2 (fun hb => absurd (h7.1 hb) (by omega))

/-- C8, instance: the sample 90 is below the cut-off 91 of the fourth
indicator and the sample 91 reaches it. -/
theorem C8_raw_cutoffs_witness :
    (90 ≤ 1023 ∧ ∃ it : Iteration, loop_body 90 ⟨0, 0, 0⟩ = some it ∧
      it.ports.PORTD.testBit PD6 = true ∧ it.ports.PORTC.testBit PC5 = false) ∧
    (91 ≤ 1023 ∧ ∃ it : Iteration, loop_body 91 ⟨0, 0, 0⟩ = some it ∧
      it.ports.PORTC.testBit PC5 = true ∧ it.ports.PORTC.testBit PC4 = false) := by
  obtain ⟨a, ha, -, -, a2, a3, -⟩ := C8_raw_cutoffs 90 (by decide) ⟨0, 0, 0⟩
  obtain ⟨b, hb, -, -, -, b3, b4, -⟩ := C8_raw_cutoffs 91 (by decide) ⟨0, 0, 0⟩
  exact ⟨⟨by decide, a, ha, a2.2 (by decide),
      Bool.eq_false_iff.2 (fun hx => absurd (a3.1 hx) (by decide))⟩,
    ⟨by decide, b, hb, b3.2 (by decide),
      Bool.eq_false_iff.2 (fun hx => absurd (b4.1 hx) (by decide))⟩⟩

/-- C10: for every raw sample in 0..1023 the string formatted into
`tempString` has between 14 and 17 characters, so with its terminating NUL it
fits in the 32-byte buffer; the longest case is reached at raw = 1023 with
`500.00C   932.00F`, of 17 characters. -/
theorem C10_tempString_length (raw : Nat) (h : raw ≤ 1023) (ports : Ports) :
    (∃ it : Iteration, loop_body raw ports = some it ∧
      14 ≤ it.tempString.length ∧ it.tempString.length ≤ 17 ∧
      it.tempString.length + 1 ≤ 32) ∧
    (∃ it : Iteration, loop_body 1023 ports = some it ∧
      it.tempString = "500.00C   932.00F" ∧ it.tempString.length = 17) := by
  constructor
  · refine ⟨_, loop_body_eq raw h ports, ?_⟩
    show 14 ≤ (line1_text _ _ _ _).length ∧ (line1_text _ _ _ _).length ≤ 17 ∧
      (line1_text _ _ _ _).length + 1 ≤ 32
    rw [line1_text_length]
    obtain ⟨a1, a2, -⟩ := repr_length_small (raw * 500 / 1023) (by omega)
    obtain ⟨-, b2, b3⟩ := repr_length_small ((raw * 4500 + 163680) / 5115) (by omega)
    have b4 := b3 (by omega)
    omega
  · have ht : line1_text (1023 * 500 / 1023) (1023 * 500 % 1023 * 100 / 1023)
        ((1023 * 4500 + 163680) / 5115) ((1023 * 4500 + 163680) % 5115 * 100 / 5115)
        = "500.00C   932.00F" := by decide
    refine ⟨_, loop_body_eq 1023 (by decide) ports, ht, ?_⟩
    show (line1_text _ _ _ _).length = 17
    rw [ht]
    rfl

/-- C10, instance: the sample 0 gives a text of 14 characters. -/
theorem C10_tempString_length_witness :
    0 ≤ 1023 ∧ ∃ it : Iteration, loop_body 0 ⟨0, 0, 0⟩ = some it ∧
      14 ≤ it.tempString.length ∧ it.tempString.length ≤ 17 ∧
      it.tempString.length + 1 ≤ 32 :=
  ⟨by decide, (C10_tempString_length 0 (by decide) ⟨0, 0, 0⟩).1⟩

end TempSensor
